import Mathlib

/-!
Verification development for the py_simple_openid_connect repository.

This file shallowly embeds the message/data model and the discovery routine
of the repository (files `simple_openid/data.py`, `simple_openid/discovery.py`
and `simple_openid_connect/utils.py`) as executable Lean definitions and
proves properties of the specification against them.

Conventions of the embedding:
* a decoded JSON document or form body is a `FieldMap` (key/value list with
  unique keys, the image of a Python dict);
* pydantic scalar coercions are modelled by the `coerce*` functions;
* message construction (`pydantic` validation) is a total function returning
  `Except FieldError <Message>`; a raised `ValidationError` is the `error`
  branch, so construction is all-or-nothing by type;
* the configuration of the base classes `OpenidBaseModel` / `OpenidMessage`
  lives in `simple_openid/base_data.py`, which is not among the given
  sources; it is modelled from the specification where noted.
-/

/-- A JSON value as produced by `json.loads`; numbers are modelled as
integers because no field of any message in the sources carries a
fractional value. -/
inductive Json where
  | null
  | bool (b : Bool)
  | num (n : Int)
  | str (s : String)
  | arr (elems : List Json)
  | obj (fields : List (String × Json))

/-- A decoded field-to-value mapping (the Python dict handed to pydantic,
coming from `json.loads` or form decoding); keys are assumed unique as in a
Python dict. -/
abbrev FieldMap := List (String × Json)

/-- Dictionary lookup on a field mapping. -/
def getField : FieldMap → String → Option Json
  | [], _ => none
  | (k, v) :: rest, key => if k = key then some v else getField rest key

/-- Model of the pydantic v1 `str` validator: strings pass through, numbers
are stringified (in Python `bool` is an `int` subclass, so `True`
stringifies to `"True"`); containers and `None` are rejected. -/
def coerceStr : Json → Option String
  | .str s => some s
  | .num n => some (toString n)
  | .bool b => some (if b then "True" else "False")
  | _ => none

/-- Model of the pydantic v1 `int` validator: ints pass through, booleans
are 1/0, numeric strings are converted; everything else is rejected. -/
def coerceInt : Json → Option Int
  | .num n => some n
  | .bool b => some (if b then 1 else 0)
  | .str s => s.toInt?
  | _ => none

/-- Model of the pydantic v1 `bool` validator with its token sets for
truthy and falsy strings and the integers one and zero. -/
def coerceBool : Json → Option Bool
  | .bool b => some b
  | .num n => if n = 1 then some true else if n = 0 then some false else none
  | .str s =>
    if ["on", "t", "true", "y", "yes", "1"].contains s.toLower then some true
    else if ["off", "f", "false", "n", "no", "0"].contains s.toLower then some false
    else none
  | _ => none

/-- Model of pydantic v1 `List[str]` validation: the value must be a JSON
array and every element must pass the `str` validator. -/
def coerceListStr : Json → Option (List String)
  | .arr elems => elems.mapM coerceStr
  | _ => none

/-- Whether the first list starts with the second (Python `str.startswith`
on the underlying characters). -/
def charsStartWith : List Char → List Char → Bool
  | _, [] => true
  | [], _ :: _ => false
  | a :: as, b :: bs => a == b && charsStartWith as bs

/-- Python `str.startswith` by characters. -/
def pyStartsWith (s pre : String) : Bool := charsStartWith s.toList pre.toList

/-- Python `str.endswith` by characters. -/
def pyEndsWith (s sfx : String) : Bool :=
  charsStartWith s.toList.reverse sfx.toList.reverse

/-- Shallow model of the pydantic v1 `HttpUrl` string validator: an http or
https scheme followed by a nonempty remainder, at most 2083 characters in
total. The full pydantic URL grammar is not needed by any claim proved in
this file; only that URL fields hold the accepted string unchanged. -/
def isHttpUrl (s : String) : Bool :=
  s.length ≤ 2083 &&
    ((pyStartsWith s "http://" && decide (7 < s.length)) ||
     (pyStartsWith s "https://" && decide (8 < s.length)))

/-- A `HttpUrl` field value: string validation followed by the URL check. -/
def coerceHttpUrl (j : Json) : Option String :=
  (coerceStr j).bind fun s => if isHttpUrl s then some s else none

/-- Validation failures raised during message construction, named after the
taxonomy the library surfaces through pydantic `ValidationError` items. -/
inductive FieldError where
  | missingRequiredField (name : String)
  | invalidFieldValue (name : String)
  | unexpectedField (name : String)
  | invalidErrorCode (value : String)
deriving DecidableEq, Repr

/-- Validation of one required field: absence and coercion failure are
fatal to construction. -/
def requiredField (coerce : Json → Option α) (m : FieldMap) (k : String) :
    Except FieldError α :=
  match getField m k with
  | none => .error (.missingRequiredField k)
  | some j =>
    match coerce j with
    | none => .error (.invalidFieldValue k)
    | some v => .ok v

/-- An `Optional[X]` value: JSON null is an explicit `None`. -/
def coerceOpt (coerce : Json → Option α) : Json → Option (Option α)
  | .null => some none
  | j => (coerce j).map some

/-- Validation of an optional field carrying a declared default: pydantic
applies the default only when the key is absent, never when a value (even
an empty one) is supplied. -/
def optionalFieldD (coerce : Json → Option α) (dflt : Option α) (m : FieldMap)
    (k : String) : Except FieldError (Option α) :=
  match getField m k with
  | none => .ok dflt
  | some j =>
    match coerceOpt coerce j with
    | none => .error (.invalidFieldValue k)
    | some v => .ok v

/-- Validation of an optional field without a declared default (pydantic v1
gives `Optional` fields the implicit default `None`). -/
def optionalField (coerce : Json → Option α) (m : FieldMap) (k : String) :
    Except FieldError (Option α) :=
  optionalFieldD coerce none m k

/-- The pydantic `Extra` policy for fields not declared by a model. -/
inductive ExtraPolicy where
  | allow
  | ignore
  | forbid
deriving DecidableEq, Repr

/-- The pydantic model configuration bits used by the sources. -/
structure ModelConfig where
  extra : ExtraPolicy
  allowMutation : Bool
deriving DecidableEq, Repr

/-- Modelled from the spec: the configuration of the `OpenidMessage` and
`OpenidBaseModel` base classes lives in `simple_openid/base_data.py`, which
is not among the given sources. Per the specification, "All messages are
immutable records once constructed" and the success responses are closed
(reject-extra-fields) schemas, while every class that allows extras sets
`Extra.allow` in its own `Config`; the base configuration is therefore
modelled as forbidding extra fields and disallowing mutation, and the
subclass `Config` declarations of `data.py` override it field by field
exactly as written there. -/
def OpenidMessage.config : ModelConfig := ⟨ExtraPolicy.forbid, false⟩

/-- Effective configuration of `ProviderMetadata` (its `Config` sets
`extra = Extra.allow` and `allow_mutation = False`). -/
def ProviderMetadata.config : ModelConfig := ⟨ExtraPolicy.allow, false⟩

/-- Effective configuration of `IdToken` (`extra = Extra.allow`,
`allow_mutation = False`). -/
def IdToken.config : ModelConfig := ⟨ExtraPolicy.allow, false⟩

/-- Effective configuration of `UserinfoRequest` (no own `Config`;
everything inherited from the `OpenidMessage` base). -/
def UserinfoRequest.config : ModelConfig := OpenidMessage.config

/-- Effective configuration of `UserinfoSuccessResponse` (`extra = allow`,
`allow_mutation = False`). -/
def UserinfoSuccessResponse.config : ModelConfig := ⟨ExtraPolicy.allow, false⟩

/-- Effective configuration of `UserinfoErrorResponse` (sets only
`allow_mutation = False`; the extra policy is inherited). -/
def UserinfoErrorResponse.config : ModelConfig := ⟨OpenidMessage.config.extra, false⟩

/-- Effective configuration of `AuthenticationRequest` (sets only
`extra = Extra.allow`; mutability is inherited from the base). -/
def AuthenticationRequest.config : ModelConfig := ⟨ExtraPolicy.allow, OpenidMessage.config.allowMutation⟩

/-- Effective configuration of `AuthenticationSuccessResponse` (sets only
`allow_mutation = False`; the extra policy is inherited). -/
def AuthenticationSuccessResponse.config : ModelConfig := ⟨OpenidMessage.config.extra, false⟩

/-- Effective configuration of `AuthenticationErrorResponse`
(`extra = allow`, `allow_mutation = False`, `use_enum_values = True`). -/
def AuthenticationErrorResponse.config : ModelConfig := ⟨ExtraPolicy.allow, false⟩

/-- Effective configuration of `TokenRequest` (sets only `extra = allow`;
mutability is inherited from the base). -/
def TokenRequest.config : ModelConfig := ⟨ExtraPolicy.allow, OpenidMessage.config.allowMutation⟩

/-- Effective configuration of `TokenSuccessResponse` (sets only
`allow_mutation = False`; the extra policy is inherited). -/
def TokenSuccessResponse.config : ModelConfig := ⟨OpenidMessage.config.extra, false⟩

/-- Effective configuration of `TokenErrorResponse` (`extra = allow`,
`allow_mutation = False`, `use_enum_values = True`). -/
def TokenErrorResponse.config : ModelConfig := ⟨ExtraPolicy.allow, false⟩

/-- All message model configurations of `data.py`, in declaration order. -/
def allMessageConfigs : List ModelConfig :=
  [ProviderMetadata.config, IdToken.config, UserinfoRequest.config,
   UserinfoSuccessResponse.config, UserinfoErrorResponse.config,
   AuthenticationRequest.config, AuthenticationSuccessResponse.config,
   AuthenticationErrorResponse.config, TokenRequest.config,
   TokenSuccessResponse.config, TokenErrorResponse.config]

/-- The error pydantic raises on attribute assignment to an immutable
model (a Python `TypeError`). -/
inductive MutationError where
  | typeError
deriving DecidableEq, Repr

/-- Model of pydantic `__setattr__` on a constructed instance: when the
model configuration has `allow_mutation = False` the assignment raises and
the field values stay untouched; otherwise the named field is replaced. -/
def setAttr (cfg : ModelConfig) (fields : FieldMap) (k : String) (v : Json) :
    Except MutationError FieldMap :=
  if cfg.allowMutation then
    .ok ((k, v) :: fields.filter fun kv => kv.1 != k)
  else
    .error .typeError

/-- The OpenID provider metadata model of `data.py` (class
`ProviderMetadata`), with its fields in declaration order. URL fields hold
the validated URL string; unknown fields are preserved in `extra` because
the model sets `Extra.allow`. -/
structure ProviderMetadata where
  issuer : String
  authorization_endpoint : String
  token_endpoint : Option String
  userinfo_endpoint : Option String
  jwks_uri : String
  registration_endpoint : Option String
  scopes_supported : Option (List String)
  response_types_supported : Option (List String)
  response_modes_supported : Option (List String)
  grant_types_supported : Option (List String)
  acr_values_supported : Option (List String)
  subject_types_supported : List String
  id_token_signing_alg_values_supported : List String
  id_token_encryption_alg_values_supported : Option (List String)
  id_token_encryption_enc_values_supported : Option (List String)
  userinfo_signing_alg_values_supported : Option (List String)
  userinfo_encryption_alg_values_supported : Option (List String)
  userinfo_encryption_enc_values_supported : Option (List String)
  request_object_signing_alg_values_supported : Option (List String)
  request_object_encryption_alg_values_supported : Option (List String)
  request_object_encryption_enc_values_supported : Option (List String)
  token_endpoint_auth_methods_supported : Option (List String)
  token_endpoint_auth_signing_alg_values_supported : Option (List String)
  display_values_supported : Option (List String)
  claim_types_supported : Option (List String)
  claims_supported : Option (List String)
  service_documentation : Option String
  claims_locales_supported : Option (List String)
  ui_locales_supported : Option (List String)
  claims_parameter_supported : Option Bool
  request_parameter_supported : Option Bool
  request_uri_parameter_supported : Option Bool
  require_request_uri_registration : Option Bool
  op_policy_uri : Option String
  op_tos_uri : Option String
  extra : FieldMap

/-- The declared field names of `ProviderMetadata`, in declaration order. -/
def ProviderMetadata.declaredFields : List String :=
  ["issuer", "authorization_endpoint", "token_endpoint", "userinfo_endpoint",
   "jwks_uri", "registration_endpoint", "scopes_supported",
   "response_types_supported", "response_modes_supported",
   "grant_types_supported", "acr_values_supported", "subject_types_supported",
   "id_token_signing_alg_values_supported",
   "id_token_encryption_alg_values_supported",
   "id_token_encryption_enc_values_supported",
   "userinfo_signing_alg_values_supported",
   "userinfo_encryption_alg_values_supported",
   "userinfo_encryption_enc_values_supported",
   "request_object_signing_alg_values_supported",
   "request_object_encryption_alg_values_supported",
   "request_object_encryption_enc_values_supported",
   "token_endpoint_auth_methods_supported",
   "token_endpoint_auth_signing_alg_values_supported",
   "display_values_supported", "claim_types_supported", "claims_supported",
   "service_documentation", "claims_locales_supported", "ui_locales_supported",
   "claims_parameter_supported", "request_parameter_supported",
   "request_uri_parameter_supported", "require_request_uri_registration",
   "op_policy_uri", "op_tos_uri"]

/-- Pydantic validation of a `ProviderMetadata` input mapping: required and
optional fields as declared in `data.py`, the four spec-mandated defaults
for lists and the four boolean capability defaults applied only on absent
keys, and all unknown fields preserved (`Extra.allow`). -/
def ProviderMetadata.parse (m : FieldMap) : Except FieldError ProviderMetadata := do
  let issuer ← requiredField coerceHttpUrl m "issuer"
  let authorization_endpoint ← requiredField coerceHttpUrl m "authorization_endpoint"
  let token_endpoint ← optionalField coerceHttpUrl m "token_endpoint"
  let userinfo_endpoint ← optionalField coerceHttpUrl m "userinfo_endpoint"
  let jwks_uri ← requiredField coerceHttpUrl m "jwks_uri"
  let registration_endpoint ← optionalField coerceHttpUrl m "registration_endpoint"
  let scopes_supported ← optionalField coerceListStr m "scopes_supported"
  let response_types_supported ← optionalField coerceListStr m "response_types_supported"
  let response_modes_supported ←
    optionalFieldD coerceListStr (some ["query", "fragment"]) m "response_modes_supported"
  let grant_types_supported ←
    optionalFieldD coerceListStr (some ["authorization_code", "implicit"]) m "grant_types_supported"
  let acr_values_supported ← optionalField coerceListStr m "acr_values_supported"
  let subject_types_supported ← requiredField coerceListStr m "subject_types_supported"
  let id_token_signing_alg_values_supported ←
    requiredField coerceListStr m "id_token_signing_alg_values_supported"
  let id_token_encryption_alg_values_supported ←
    optionalField coerceListStr m "id_token_encryption_alg_values_supported"
  let id_token_encryption_enc_values_supported ←
    optionalField coerceListStr m "id_token_encryption_enc_values_supported"
  let userinfo_signing_alg_values_supported ←
    optionalField coerceListStr m "userinfo_signing_alg_values_supported"
  let userinfo_encryption_alg_values_supported ←
    optionalField coerceListStr m "userinfo_encryption_alg_values_supported"
  let userinfo_encryption_enc_values_supported ←
    optionalField coerceListStr m "userinfo_encryption_enc_values_supported"
  let request_object_signing_alg_values_supported ←
    optionalField coerceListStr m "request_object_signing_alg_values_supported"
  let request_object_encryption_alg_values_supported ←
    optionalField coerceListStr m "request_object_encryption_alg_values_supported"
  let request_object_encryption_enc_values_supported ←
    optionalField coerceListStr m "request_object_encryption_enc_values_supported"
  let token_endpoint_auth_methods_supported ←
    optionalFieldD coerceListStr (some ["client_secret_basic"]) m "token_endpoint_auth_methods_supported"
  let token_endpoint_auth_signing_alg_values_supported ←
    optionalField coerceListStr m "token_endpoint_auth_signing_alg_values_supported"
  let display_values_supported ← optionalField coerceListStr m "display_values_supported"
  let claim_types_supported ← optionalField coerceListStr m "claim_types_supported"
  let claims_supported ← optionalField coerceListStr m "claims_supported"
  let service_documentation ← optionalField coerceHttpUrl m "service_documentation"
  let claims_locales_supported ← optionalField coerceListStr m "claims_locales_supported"
  let ui_locales_supported ← optionalField coerceListStr m "ui_locales_supported"
  let claims_parameter_supported ←
    optionalFieldD coerceBool (some false) m "claims_parameter_supported"
  let request_parameter_supported ←
    optionalFieldD coerceBool (some false) m "request_parameter_supported"
  let request_uri_parameter_supported ←
    optionalFieldD coerceBool (some true) m "request_uri_parameter_supported"
  let require_request_uri_registration ←
    optionalFieldD coerceBool (some false) m "require_request_uri_registration"
  let op_policy_uri ← optionalField coerceHttpUrl m "op_policy_uri"
  let op_tos_uri ← optionalField coerceHttpUrl m "op_tos_uri"
  .ok ⟨issuer, authorization_endpoint, token_endpoint, userinfo_endpoint,
    jwks_uri, registration_endpoint, scopes_supported,
    response_types_supported, response_modes_supported, grant_types_supported,
    acr_values_supported, subject_types_supported,
    id_token_signing_alg_values_supported,
    id_token_encryption_alg_values_supported,
    id_token_encryption_enc_values_supported,
    userinfo_signing_alg_values_supported,
    userinfo_encryption_alg_values_supported,
    userinfo_encryption_enc_values_supported,
    request_object_signing_alg_values_supported,
    request_object_encryption_alg_values_supported,
    request_object_encryption_enc_values_supported,
    token_endpoint_auth_methods_supported,
    token_endpoint_auth_signing_alg_values_supported,
    display_values_supported, claim_types_supported, claims_supported,
    service_documentation, claims_locales_supported, ui_locales_supported,
    claims_parameter_supported, request_parameter_supported,
    request_uri_parameter_supported, require_request_uri_registration,
    op_policy_uri, op_tos_uri,
    m.filter fun kv => !(ProviderMetadata.declaredFields.contains kv.1)⟩

/-- Failures of `ProviderMetadata.parse_raw`: the body may fail JSON
decoding (or not be a JSON object) before pydantic field validation runs. -/
inductive RawParseError where
  | jsonDecodeError
  | validationError (e : FieldError)
deriving DecidableEq, Repr

/-- Pydantic `parse_raw` on the response body: the body is modelled as the
outcome of JSON decoding (`none` for undecodable bytes). -/
def ProviderMetadata.parse_raw : Option Json → Except RawParseError ProviderMetadata
  | none => .error .jsonDecodeError
  | some (.obj m) => (ProviderMetadata.parse m).mapError .validationError
  | some _ => .error .jsonDecodeError

/-- The HTTP response observed by the discovery routine: the value of the
`Content-Type` header (if present) and the decoded body. Transport-level
failures propagate before this point and are out of scope. -/
structure HttpResponse where
  contentType : Option String
  body : Option Json

/-- The `OpenidProtocolError` cases raised by
`discover_configuration_from_issuer`; the second carries no cause, the
underlying validation error is only chained as context in Python and never
surfaced as the raised error itself. -/
inductive OpenidProtocolError where
  | notJson (contentType : Option String)
  | notConformingToSpec
deriving DecidableEq, Repr

/-- Python `str.removesuffix`: drops one occurrence of a nonempty suffix. -/
def pyRemoveSuffix (s sfx : String) : String :=
  if sfx.length != 0 && pyEndsWith s sfx then
    String.mk (s.toList.take (s.toList.length - sfx.length))
  else s

/-- Model of `discover_configuration_from_issuer` from
`simple_openid/discovery.py`, after the HTTP GET returned `response`: the
issuer is normalized by stripping one trailing slash, the `Content-Type`
header is compared for exact string equality with `application/json`, the
body is parsed through `ProviderMetadata.parse_raw`, and the parsed issuer
is asserted equal to the normalized requested issuer; the parse and the
assert are wrapped so that any failure of either becomes
`OpenidProtocolError.notConformingToSpec`. -/
def discover_configuration_from_issuer (issuer : String) (response : HttpResponse) :
    Except OpenidProtocolError ProviderMetadata :=
  let issuer := pyRemoveSuffix issuer "/"
  if response.contentType ≠ some "application/json" then
    .error (.notJson response.contentType)
  else
    match ProviderMetadata.parse_raw response.body with
    | .error _ => .error .notConformingToSpec
    | .ok result =>
      if result.issuer = issuer then .ok result
      else .error .notConformingToSpec

/-- The value of a `Union[str, List[str]]` field: pydantic keeps the
successful branch as-is, so the wire shape stays observable on the
constructed instance. -/
inductive StrOrList where
  | str (s : String)
  | list (l : List String)
deriving DecidableEq, Repr

/-- Model of pydantic v1 validation of `Union[str, List[str]]`: the `str`
member is tried first (with scalar coercion), then `List[str]`. -/
def coerceStrOrList (j : Json) : Option StrOrList :=
  match coerceStr j with
  | some s => some (.str s)
  | none => (coerceListStr j).map .list

/-- The `IdToken` claim set model of `data.py`; `sub` is a plain string
field (no length constraint is declared), `aud` is the string-or-list
union, and extra claims are preserved (`Extra.allow`). -/
structure IdToken where
  iss : String
  sub : String
  aud : StrOrList
  exp : Int
  iat : Int
  auth_time : Option Int
  nonce : Option String
  acr : Option String
  amr : Option (List String)
  azp : Option String
  extra : FieldMap

/-- The declared claim names of `IdToken`. -/
def IdToken.declaredFields : List String :=
  ["iss", "sub", "aud", "exp", "iat", "auth_time", "nonce", "acr", "amr", "azp"]

/-- Pydantic validation of an `IdToken` input mapping. -/
def IdToken.parse (m : FieldMap) : Except FieldError IdToken := do
  let iss ← requiredField coerceHttpUrl m "iss"
  let sub ← requiredField coerceStr m "sub"
  let aud ← requiredField coerceStrOrList m "aud"
  let exp ← requiredField coerceInt m "exp"
  let iat ← requiredField coerceInt m "iat"
  let auth_time ← optionalField coerceInt m "auth_time"
  let nonce ← optionalField coerceStr m "nonce"
  let acr ← optionalField coerceStr m "acr"
  let amr ← optionalField coerceListStr m "amr"
  let azp ← optionalField coerceStr m "azp"
  .ok ⟨iss, sub, aud, exp, iat, auth_time, nonce, acr, amr, azp,
    m.filter fun kv => !(IdToken.declaredFields.contains kv.1)⟩

/-- The enumerated error vocabulary of `AuthenticationErrorResponse`
(class `AuthenticationErrorResponse.ErrorType` in `data.py`), sixteen
members in declaration order. -/
inductive AuthenticationErrorResponse.ErrorType where
  | invalid_request
  | unauthorized_client
  | access_denied
  | unsupported_response_type
  | invalid_scope
  | server_error
  | temporarily_unavailable
  | interaction_required
  | login_required
  | account_selection_required
  | consent_required
  | invalid_request_uri
  | invalid_request_object
  | request_not_supported
  | request_uri_not_supported
  | registration_not_supported
deriving DecidableEq, Repr

/-- The wire string value of each authentication error member. -/
def AuthenticationErrorResponse.ErrorType.toWire :
    AuthenticationErrorResponse.ErrorType → String
  | .invalid_request => "invalid_request"
  | .unauthorized_client => "unauthorized_client"
  | .access_denied => "access_denied"
  | .unsupported_response_type => "unsupported_response_type"
  | .invalid_scope => "invalid_scope"
  | .server_error => "server_error"
  | .temporarily_unavailable => "temporarily_unavailable"
  | .interaction_required => "interaction_required"
  | .login_required => "login_required"
  | .account_selection_required => "account_selection_required"
  | .consent_required => "consent_required"
  | .invalid_request_uri => "invalid_request_uri"
  | .invalid_request_object => "invalid_request_object"
  | .request_not_supported => "request_not_supported"
  | .request_uri_not_supported => "request_uri_not_supported"
  | .registration_not_supported => "registration_not_supported"

/-- Enum lookup by value, as pydantic performs it when validating the
`error` field: the member whose value equals the wire string, if any. -/
def AuthenticationErrorResponse.ErrorType.fromWire :
    String → Option AuthenticationErrorResponse.ErrorType
  | "invalid_request" => some .invalid_request
  | "unauthorized_client" => some .unauthorized_client
  | "access_denied" => some .access_denied
  | "unsupported_response_type" => some .unsupported_response_type
  | "invalid_scope" => some .invalid_scope
  | "server_error" => some .server_error
  | "temporarily_unavailable" => some .temporarily_unavailable
  | "interaction_required" => some .interaction_required
  | "login_required" => some .login_required
  | "account_selection_required" => some .account_selection_required
  | "consent_required" => some .consent_required
  | "invalid_request_uri" => some .invalid_request_uri
  | "invalid_request_object" => some .invalid_request_object
  | "request_not_supported" => some .request_not_supported
  | "request_uri_not_supported" => some .request_uri_not_supported
  | "registration_not_supported" => some .registration_not_supported
  | _ => none

/-- The sixteen wire strings of the authentication error vocabulary. -/
def authenticationErrorValues : List String :=
  ["invalid_request", "unauthorized_client", "access_denied",
   "unsupported_response_type", "invalid_scope", "server_error",
   "temporarily_unavailable", "interaction_required", "login_required",
   "account_selection_required", "consent_required", "invalid_request_uri",
   "invalid_request_object", "request_not_supported",
   "request_uri_not_supported", "registration_not_supported"]

/-- The `AuthenticationErrorResponse` model; its `Config` sets
`use_enum_values = True`, so the constructed instance stores the value
string of the validated enum member, not the member itself. -/
structure AuthenticationErrorResponse where
  error : String
  error_description : Option String
  error_uri : Option String
  state : Option String
  extra : FieldMap

/-- The declared field names of `AuthenticationErrorResponse`. -/
def AuthenticationErrorResponse.declaredFields : List String :=
  ["error", "error_description", "error_uri", "state"]

/-- Pydantic validation of an `AuthenticationErrorResponse` input mapping:
the `error` value must be a member of the declared vocabulary (a value
outside it is the invalid-error-code validation failure); extras are
preserved (`Extra.allow`). -/
def AuthenticationErrorResponse.parse (m : FieldMap) :
    Except FieldError AuthenticationErrorResponse := do
  let error ←
    (match getField m "error" with
      | none => Except.error (FieldError.missingRequiredField "error")
      | some (Json.str s) =>
        match AuthenticationErrorResponse.ErrorType.fromWire s with
        | some t => Except.ok t.toWire
        | none => Except.error (FieldError.invalidErrorCode s)
      | some _ => Except.error (FieldError.invalidFieldValue "error"))
  let error_description ← optionalField coerceStr m "error_description"
  let error_uri ← optionalField coerceStr m "error_uri"
  let state ← optionalField coerceStr m "state"
  .ok ⟨error, error_description, error_uri, state,
    m.filter fun kv => !(AuthenticationErrorResponse.declaredFields.contains kv.1)⟩

/-- The enumerated error vocabulary of `TokenErrorResponse` (class
`TokenErrorResponse.ErrorType` in `data.py`), six members. -/
inductive TokenErrorResponse.ErrorType where
  | invalid_request
  | invalid_client
  | invalid_grant
  | unauthorized_client
  | unsupported_grant_type
  | invalid_scope
deriving DecidableEq, Repr

/-- The wire string value of each token error member. -/
def TokenErrorResponse.ErrorType.toWire : TokenErrorResponse.ErrorType → String
  | .invalid_request => "invalid_request"
  | .invalid_client => "invalid_client"
  | .invalid_grant => "invalid_grant"
  | .unauthorized_client => "unauthorized_client"
  | .unsupported_grant_type => "unsupported_grant_type"
  | .invalid_scope => "invalid_scope"

/-- Enum lookup by value for the token error vocabulary. -/
def TokenErrorResponse.ErrorType.fromWire : String → Option TokenErrorResponse.ErrorType
  | "invalid_request" => some .invalid_request
  | "invalid_client" => some .invalid_client
  | "invalid_grant" => some .invalid_grant
  | "unauthorized_client" => some .unauthorized_client
  | "unsupported_grant_type" => some .unsupported_grant_type
  | "invalid_scope" => some .invalid_scope
  | _ => none

/-- The six wire strings of the token error vocabulary. -/
def tokenErrorValues : List String :=
  ["invalid_request", "invalid_client", "invalid_grant",
   "unauthorized_client", "unsupported_grant_type", "invalid_scope"]

/-- The `TokenErrorResponse` model; `use_enum_values = True` stores the
value string of the validated member. -/
structure TokenErrorResponse where
  error : String
  error_description : Option String
  error_uri : Option String
  extra : FieldMap

/-- The declared field names of `TokenErrorResponse`. -/
def TokenErrorResponse.declaredFields : List String :=
  ["error", "error_description", "error_uri"]

/-- Pydantic validation of a `TokenErrorResponse` input mapping. -/
def TokenErrorResponse.parse (m : FieldMap) :
    Except FieldError TokenErrorResponse := do
  let error ←
    (match getField m "error" with
      | none => Except.error (FieldError.missingRequiredField "error")
      | some (Json.str s) =>
        match TokenErrorResponse.ErrorType.fromWire s with
        | some t => Except.ok t.toWire
        | none => Except.error (FieldError.invalidErrorCode s)
      | some _ => Except.error (FieldError.invalidFieldValue "error"))
  let error_description ← optionalField coerceStr m "error_description"
  let error_uri ← optionalField coerceStr m "error_uri"
  .ok ⟨error, error_description, error_uri,
    m.filter fun kv => !(TokenErrorResponse.declaredFields.contains kv.1)⟩

/-- The `AuthenticationSuccessResponse` model: required `code`, optional
`state`; its effective configuration forbids undeclared fields. -/
structure AuthenticationSuccessResponse where
  code : String
  state : Option String
deriving DecidableEq, Repr

/-- The declared field names of `AuthenticationSuccessResponse`. -/
def AuthenticationSuccessResponse.declaredFields : List String := ["code", "state"]

/-- Pydantic validation of an `AuthenticationSuccessResponse` input
mapping: any key outside the declared field set is the unexpected-field
validation failure (`Extra.forbid`, inherited from the base
configuration). -/
def AuthenticationSuccessResponse.parse (m : FieldMap) :
    Except FieldError AuthenticationSuccessResponse :=
  match m.find? (fun kv => !(AuthenticationSuccessResponse.declaredFields.contains kv.1)) with
  | some kv => .error (.unexpectedField kv.1)
  | none => do
    let code ← requiredField coerceStr m "code"
    let state ← optionalField coerceStr m "state"
    .ok ⟨code, state⟩

/-- The `TokenSuccessResponse` model: required `access_token`,
`token_type` and `id_token`, optional `expires_in`, `refresh_token` and
`scope`; its effective configuration forbids undeclared fields. -/
structure TokenSuccessResponse where
  access_token : String
  token_type : String
  expires_in : Option Int
  refresh_token : Option String
  scope : Option String
  id_token : String
deriving DecidableEq, Repr

/-- The declared field names of `TokenSuccessResponse`. -/
def TokenSuccessResponse.declaredFields : List String :=
  ["access_token", "token_type", "expires_in", "refresh_token", "scope", "id_token"]

/-- Pydantic validation of a `TokenSuccessResponse` input mapping
(`Extra.forbid` inherited from the base configuration). -/
def TokenSuccessResponse.parse (m : FieldMap) :
    Except FieldError TokenSuccessResponse :=
  match m.find? (fun kv => !(TokenSuccessResponse.declaredFields.contains kv.1)) with
  | some kv => .error (.unexpectedField kv.1)
  | none => do
    let access_token ← requiredField coerceStr m "access_token"
    let token_type ← requiredField coerceStr m "token_type"
    let expires_in ← optionalField coerceInt m "expires_in"
    let refresh_token ← optionalField coerceStr m "refresh_token"
    let scope ← optionalField coerceStr m "scope"
    let id_token ← requiredField coerceStr m "id_token"
    .ok ⟨access_token, token_type, expires_in, refresh_token, scope, id_token⟩

/-- The `UserinfoErrorResponse` model: `error` is a plain string field
with no vocabulary constraint, plus an optional `error_description`. -/
structure UserinfoErrorResponse where
  error : String
  error_description : Option String
deriving DecidableEq, Repr

/-- The declared field names of `UserinfoErrorResponse`. -/
def UserinfoErrorResponse.declaredFields : List String :=
  ["error", "error_description"]

/-- Pydantic validation of a `UserinfoErrorResponse` input mapping; the
extra policy is the one inherited from the base configuration (the class
`Config` sets only `allow_mutation`). -/
def UserinfoErrorResponse.parse (m : FieldMap) :
    Except FieldError UserinfoErrorResponse :=
  match m.find? (fun kv => !(UserinfoErrorResponse.declaredFields.contains kv.1)) with
  | some kv => .error (.unexpectedField kv.1)
  | none => do
    let error ← requiredField coerceStr m "error"
    let error_description ← optionalField coerceStr m "error_description"
    .ok ⟨error, error_description⟩

/-- Python whitespace as stripped by `str.strip()` on ASCII input. -/
def isPySpace (c : Char) : Bool :=
  c == ' ' || c == '\t' || c == '\n' || c == '\r' || c == '\x0b' || c == '\x0c'

/-- Python `str.strip()`: drop leading and trailing whitespace. -/
def pyStrip (l : List Char) : List Char :=
  ((l.dropWhile isPySpace).reverse.dropWhile isPySpace).reverse

/-- Python `str.find(ch, start)`: the least index at or after `start`
holding `ch`, or nothing (Python returns -1). -/
def findCharFrom (c : Char) : List Char → Nat → Option Nat
  | [], _ => none
  | a :: rest, 0 => if a == c then some 0 else (findCharFrom c rest 0).map (· + 1)
  | _ :: rest, n + 1 => (findCharFrom c rest n).map (· + 1)

/-- Count of the two-character sequence backslash-quote (non-overlapping,
left to right), as Python `s.count` computes it on the sliced prefix. -/
def countEscQuote : List Char → Nat
  | '\\' :: '"' :: rest => countEscQuote rest + 1
  | _ :: rest => countEscQuote rest
  | [] => 0

/-- Count of double-quote characters. -/
def countQuote (l : List Char) : Nat := l.count '"'

/-- The quote-parity test of the inner while loop of `_parseparam`: the
prefix before the candidate semicolon holds an odd number of unescaped
double quotes, meaning the semicolon lies inside a quoted string. -/
def insideQuotes (l : List Char) (e : Nat) : Bool :=
  (countQuote (l.take e) - countEscQuote (l.take e)) % 2 == 1

/-- The inner while loop of `_parseparam`: starting from the first
semicolon position, advance to the next semicolon while the current one
lies inside quotes; no semicolon left means the segment runs to the end of
the string. The candidate index strictly grows each iteration, so a fuel
of the string length plus one always suffices. -/
def findParamEndGo (l : List Char) : Option Nat → Nat → Nat
  | none, _ => l.length
  | some e, 0 => e
  | some e, fuel + 1 =>
    if 0 < e ∧ insideQuotes l e then findParamEndGo l (findCharFrom ';' l (e + 1)) fuel
    else e

/-- Where the first parameter segment of `s` ends, as computed by the
loop in `_parseparam`. -/
def findParamEnd (l : List Char) : Nat :=
  findParamEndGo l (findCharFrom ';' l 0) (l.length + 1)

/-- Model of `_parse_header` from `simple_openid_connect/utils.py`
(adapted there from the cpython `cgi` module): it calls
`_parseparam(";" + line).__next__()`; the generator strips the prepended
semicolon back off, computes the end of the first segment honoring quoted
strings, and yields that segment stripped of surrounding whitespace. -/
def _parse_header (line : String) : String :=
  String.mk (pyStrip (line.toList.take (findParamEnd line.toList)))

/-- Model of `is_application_json` from `simple_openid_connect/utils.py`:
the parsed main content type must equal `application/json`. -/
def is_application_json (content_type : String) : Bool :=
  _parse_header content_type == "application/json"

/-- Model of `validate_that` from `simple_openid_connect/utils.py`: a false
condition is a validation failure carrying the message, a true one is a
no-op. -/
def validate_that (condition : Bool) (msg : String) : Except String Unit :=
  if condition then .ok () else .error msg

/-- The discovery scenario body of the specification: the provider document
of issuer `https://idp.example.com` with only required fields and
`response_types_supported`. -/
def exampleProviderFields : FieldMap :=
  [("issuer", Json.str "https://idp.example.com"),
   ("authorization_endpoint", Json.str "https://idp.example.com/auth"),
   ("jwks_uri", Json.str "https://idp.example.com/jwks"),
   ("subject_types_supported", Json.arr [Json.str "public"]),
   ("id_token_signing_alg_values_supported", Json.arr [Json.str "RS256"]),
   ("response_types_supported", Json.arr [Json.str "code"])]

/-- The metadata instance expected from parsing `exampleProviderFields`:
supplied values kept, every defaulted field filled with its default,
everything else absent. -/
def exampleProviderMetadata : ProviderMetadata where
  issuer := "https://idp.example.com"
  authorization_endpoint := "https://idp.example.com/auth"
  token_endpoint := none
  userinfo_endpoint := none
  jwks_uri := "https://idp.example.com/jwks"
  registration_endpoint := none
  scopes_supported := none
  response_types_supported := some ["code"]
  response_modes_supported := some ["query", "fragment"]
  grant_types_supported := some ["authorization_code", "implicit"]
  acr_values_supported := none
  subject_types_supported := ["public"]
  id_token_signing_alg_values_supported := ["RS256"]
  id_token_encryption_alg_values_supported := none
  id_token_encryption_enc_values_supported := none
  userinfo_signing_alg_values_supported := none
  userinfo_encryption_alg_values_supported := none
  userinfo_encryption_enc_values_supported := none
  request_object_signing_alg_values_supported := none
  request_object_encryption_alg_values_supported := none
  request_object_encryption_enc_values_supported := none
  token_endpoint_auth_methods_supported := some ["client_secret_basic"]
  token_endpoint_auth_signing_alg_values_supported := none
  display_values_supported := none
  claim_types_supported := none
  claims_supported := none
  service_documentation := none
  claims_locales_supported := none
  ui_locales_supported := none
  claims_parameter_supported := some false
  request_parameter_supported := some false
  request_uri_parameter_supported := some true
  require_request_uri_registration := some false
  op_policy_uri := none
  op_tos_uri := none
  extra := []

/-- The issuer-mismatch scenario body: identical document but asserting the
identity of another issuer. -/
def evilProviderFields : FieldMap :=
  ("issuer", Json.str "https://evil.example.com") :: exampleProviderFields.tail

/-- The metadata instance expected from parsing `evilProviderFields`. -/
def evilProviderMetadata : ProviderMetadata :=
  { exampleProviderMetadata with issuer := "https://evil.example.com" }

/-- The metadata instance expected from parsing `overrideProviderFields`:
every supplied value kept verbatim, no default applied. -/
def overrideProviderMetadata : ProviderMetadata :=
  { exampleProviderMetadata with
      response_modes_supported := some []
      grant_types_supported := some ["authorization_code"]
      token_endpoint_auth_methods_supported := some []
      claims_parameter_supported := some true
      request_parameter_supported := some true
      request_uri_parameter_supported := some false
      require_request_uri_registration := some true }

/-- A well-formed discovery response for `exampleProviderFields`. -/
def exampleResponse : HttpResponse :=
  ⟨some "application/json", some (Json.obj exampleProviderFields)⟩

/-- A discovery response whose body asserts a different issuer. -/
def evilResponse : HttpResponse :=
  ⟨some "application/json", some (Json.obj evilProviderFields)⟩

/-- A discovery response whose JSON content type carries a charset
parameter. -/
def charsetResponse : HttpResponse :=
  ⟨some "application/json; charset=utf-8", some (Json.obj exampleProviderFields)⟩

/-- A body carrying the defaulted fields explicitly, with an empty list and
non-default booleans, to observe that supplied values are never
overridden. -/
def overrideProviderFields : FieldMap :=
  exampleProviderFields ++
  [("response_modes_supported", Json.arr []),
   ("grant_types_supported", Json.arr [Json.str "authorization_code"]),
   ("token_endpoint_auth_methods_supported", Json.arr []),
   ("claims_parameter_supported", Json.bool true),
   ("request_parameter_supported", Json.bool true),
   ("request_uri_parameter_supported", Json.bool false),
   ("require_request_uri_registration", Json.bool true)]

/-- An ID token input mapping with the given subject and all other
required claims fixed to valid values. -/
def idTokenBodyWithSub (s : String) : FieldMap :=
  [("iss", Json.str "https://idp.example.com"),
   ("sub", Json.str s),
   ("aud", Json.str "client123"),
   ("exp", Json.num 1700000000),
   ("iat", Json.num 1699990000)]

/-- The token instance expected from `idTokenBodyWithSub`. -/
def idTokenWithSub (s : String) : IdToken :=
  ⟨"https://idp.example.com", s, .str "client123", 1700000000, 1699990000,
   none, none, none, none, none, []⟩

/-- A subject identifier of 256 ASCII characters, one past the documented
bound. -/
def longSub : String := String.mk (List.replicate 256 'a')

/-- An ID token input mapping whose `aud` uses the list wire shape. -/
def idTokenAudListBody : FieldMap :=
  [("iss", Json.str "https://idp.example.com"),
   ("sub", Json.str "24400320"),
   ("aud", Json.arr [Json.str "client123", Json.str "other"]),
   ("exp", Json.num 1700000000),
   ("iat", Json.num 1699990000)]

/-- The token instance expected from `idTokenAudListBody`. -/
def idTokenAudListToken : IdToken :=
  ⟨"https://idp.example.com", "24400320", .list ["client123", "other"],
   1700000000, 1699990000, none, none, none, none, none, []⟩

set_option maxRecDepth 100000

/-! ## Helper lemmas -/

/-- Inversion of a successful `Except` bind. -/
theorem exceptBind_ok {ε α β : Type} {x : Except ε α} {f : α → Except ε β} {b : β} :
    x >>= f = Except.ok b ↔ ∃ a, x = Except.ok a ∧ f a = Except.ok b := by
  cases x <;> simp [Bind.bind, Except.bind]

/-- A defaulted optional field takes its default exactly when the key is
absent. -/
theorem optionalFieldD_absent {α : Type} {coerce : Json → Option α} {dflt : Option α}
    {m : FieldMap} {k : String} {v : Option α}
    (h : optionalFieldD coerce dflt m k = Except.ok v) (habs : getField m k = none) :
    v = dflt := by
  unfold optionalFieldD at h
  rw [habs] at h
  injection h with h
  exact h.symm

/-- A defaulted optional field holds the coercion of the supplied value
whenever the key is present, never the default. -/
theorem optionalFieldD_present {α : Type} {coerce : Json → Option α} {dflt : Option α}
    {m : FieldMap} {k : String} {j : Json} {v : Option α}
    (h : optionalFieldD coerce dflt m k = Except.ok v) (hp : getField m k = some j) :
    coerceOpt coerce j = some v := by
  unfold optionalFieldD at h
  rw [hp] at h
  dsimp only [] at h
  cases hc : coerceOpt coerce j with
  | none => rw [hc] at h; exact Except.noConfusion h
  | some w => rw [hc] at h; injection h with h; rw [h]

/-- Enum lookup in the authentication vocabulary succeeds exactly on the
sixteen declared wire strings. -/
theorem authErrorFromWire_isSome_iff (s : String) :
    (AuthenticationErrorResponse.ErrorType.fromWire s).isSome ↔
      s ∈ authenticationErrorValues := by
  unfold AuthenticationErrorResponse.ErrorType.fromWire
  split <;> simp_all [authenticationErrorValues]

/-- A successful authentication enum lookup returns the member whose wire
value is the looked-up string. -/
theorem authErrorToWire_fromWire (s : String)
    (t : AuthenticationErrorResponse.ErrorType)
    (h : AuthenticationErrorResponse.ErrorType.fromWire s = some t) :
    AuthenticationErrorResponse.ErrorType.toWire t = s := by
  unfold AuthenticationErrorResponse.ErrorType.fromWire at h
  split at h <;> cases h <;> rfl

/-- Enum lookup in the token vocabulary succeeds exactly on the six
declared wire strings. -/
theorem tokenErrorFromWire_isSome_iff (s : String) :
    (TokenErrorResponse.ErrorType.fromWire s).isSome ↔ s ∈ tokenErrorValues := by
  unfold TokenErrorResponse.ErrorType.fromWire
  split <;> simp_all [tokenErrorValues]

/-- A successful token enum lookup returns the member whose wire value is
the looked-up string. -/
theorem tokenErrorToWire_fromWire (s : String)
    (t : TokenErrorResponse.ErrorType)
    (h : TokenErrorResponse.ErrorType.fromWire s = some t) :
    TokenErrorResponse.ErrorType.toWire t = s := by
  unfold TokenErrorResponse.ErrorType.fromWire at h
  split at h <;> cases h <;> rfl

/-- Behavior of `AuthenticationErrorResponse.parse` on an error value
outside the vocabulary. -/
theorem authErrorParse_fromWire_none {s : String}
    (h : AuthenticationErrorResponse.ErrorType.fromWire s = none) :
    AuthenticationErrorResponse.parse [("error", Json.str s)] =
      Except.error (FieldError.invalidErrorCode s) := by
  simp +decide [AuthenticationErrorResponse.parse, getField, h, Bind.bind, Except.bind]

/-- Behavior of `AuthenticationErrorResponse.parse` on an error value
inside the vocabulary. -/
theorem authErrorParse_fromWire_some {s : String}
    {t : AuthenticationErrorResponse.ErrorType}
    (h : AuthenticationErrorResponse.ErrorType.fromWire s = some t) :
    AuthenticationErrorResponse.parse [("error", Json.str s)] =
      Except.ok ⟨AuthenticationErrorResponse.ErrorType.toWire t, none, none, none, []⟩ := by
  simp +decide [AuthenticationErrorResponse.parse, getField, h, Bind.bind, Except.bind,
    optionalField, optionalFieldD, AuthenticationErrorResponse.declaredFields]

/-- Behavior of `TokenErrorResponse.parse` on an error value outside the
vocabulary. -/
theorem tokenErrorParse_fromWire_none {s : String}
    (h : TokenErrorResponse.ErrorType.fromWire s = none) :
    TokenErrorResponse.parse [("error", Json.str s)] =
      Except.error (FieldError.invalidErrorCode s) := by
  simp +decide [TokenErrorResponse.parse, getField, h, Bind.bind, Except.bind]

/-- Behavior of `TokenErrorResponse.parse` on an error value inside the
vocabulary. -/
theorem tokenErrorParse_fromWire_some {s : String}
    {t : TokenErrorResponse.ErrorType}
    (h : TokenErrorResponse.ErrorType.fromWire s = some t) :
    TokenErrorResponse.parse [("error", Json.str s)] =
      Except.ok ⟨TokenErrorResponse.ErrorType.toWire t, none, none, []⟩ := by
  simp +decide [TokenErrorResponse.parse, getField, h, Bind.bind, Except.bind,
    optionalField, optionalFieldD, TokenErrorResponse.declaredFields]

/-- The first occurrence of a character appended behind a list free of it
sits exactly at the length of that list. -/
theorem findCharFrom_zero_append (c : Char) (l1 l2 : List Char) (h : c ∉ l1) :
    findCharFrom c (l1 ++ c :: l2) 0 = some l1.length := by
  induction l1 with
  | nil => simp [findCharFrom]
  | cons a as ih =>
    have ha : a ≠ c := fun hac => h (hac ▸ List.mem_cons_self a as)
    have has : c ∉ as := fun hc => h (List.mem_cons_of_mem a hc)
    simp only [List.cons_append, findCharFrom, beq_iff_eq, List.append_eq]
    rw [if_neg ha, ih has]
    rfl

/-- The parameter segmentation of `_parse_header` cuts at the first
semicolon when the media type itself holds no semicolon and no quote. -/
theorem parse_header_discards_params (mt rest : String)
    (hsemi : ';' ∉ mt.toList) (hquote : '"' ∉ mt.toList) :
    _parse_header (mt ++ ";" ++ rest) = String.mk (pyStrip mt.toList) := by
  have hl : (mt ++ ";" ++ rest).toList = mt.toList ++ ';' :: rest.toList := by
    simp [String.toList, String.data_append]
  unfold _parse_header
  rw [hl]
  have hfind : findCharFrom ';' (mt.toList ++ ';' :: rest.toList) 0 = some mt.toList.length :=
    findCharFrom_zero_append ';' mt.toList rest.toList hsemi
  have htake : (mt.toList ++ ';' :: rest.toList).take mt.toList.length = mt.toList := by
    simp [List.take_left]
  have hinside : insideQuotes (mt.toList ++ ';' :: rest.toList) mt.toList.length = false := by
    unfold insideQuotes
    rw [htake]
    unfold countQuote
    rw [List.count_eq_zero.mpr hquote]
    simp
  unfold findParamEnd
  rw [hfind]
  unfold findParamEndGo
  rw [hinside]
  simp [htake]

/-! ## Claim theorems -/

/-- C1: for every issuer string and every response, if the body does not
parse into a metadata instance whose issuer equals the trailing-slash
normalized requested issuer (because validation fails or the issuer
differs), `discover_configuration_from_issuer` returns a protocol error
(the `OpenidProtocolError` type carries no wrapped cause, so the raw
validation error is never surfaced) and no metadata instance; and whenever
it returns normally, the returned metadata is the parsed body and its
issuer equals the normalized requested issuer. -/
theorem discover_issuer_cross_check :
    (∀ (issuer : String) (resp : HttpResponse),
        (∀ md, ProviderMetadata.parse_raw resp.body = Except.ok md →
            md.issuer ≠ pyRemoveSuffix issuer "/") →
        ∃ e, discover_configuration_from_issuer issuer resp = Except.error e)
    ∧ (∀ (issuer : String) (resp : HttpResponse) (md : ProviderMetadata),
        discover_configuration_from_issuer issuer resp = Except.ok md →
        ProviderMetadata.parse_raw resp.body = Except.ok md ∧
        md.issuer = pyRemoveSuffix issuer "/") := by
  constructor
  · intro issuer resp h
    by_cases hct : resp.contentType = some "application/json"
    · cases hp : ProviderMetadata.parse_raw resp.body with
      | error e =>
        exact ⟨OpenidProtocolError.notConformingToSpec,
          by simp [discover_configuration_from_issuer, hct, hp]⟩
      | ok md =>
        exact ⟨OpenidProtocolError.notConformingToSpec,
          by simp [discover_configuration_from_issuer, hct, hp, h md hp]⟩
    · exact ⟨OpenidProtocolError.notJson resp.contentType,
        by simp [discover_configuration_from_issuer, hct]⟩
  · intro issuer resp md h
    by_cases hct : resp.contentType = some "application/json"
    · simp only [discover_configuration_from_issuer, hct] at h
      simp at h
      cases hp : ProviderMetadata.parse_raw resp.body with
      | error e => rw [hp] at h; exact Except.noConfusion h
      | ok result =>
        rw [hp] at h
        dsimp only [] at h
        by_cases hiss : result.issuer = pyRemoveSuffix issuer "/"
        · rw [if_pos hiss] at h
          injection h with h
          subst h
          exact ⟨rfl, hiss⟩
        · rw [if_neg hiss] at h
          exact Except.noConfusion h
    · simp [discover_configuration_from_issuer, hct] at h

/-- Witness for C1: a body asserting the issuer of another provider makes
discovery fail, and the well-formed body (requested with a trailing slash)
is returned with the normalized issuer. -/
theorem discover_issuer_cross_check_witness :
    (∃ e, discover_configuration_from_issuer "https://idp.example.com" evilResponse =
        Except.error e)
    ∧ (ProviderMetadata.parse_raw exampleResponse.body = Except.ok exampleProviderMetadata ∧
        exampleProviderMetadata.issuer = pyRemoveSuffix "https://idp.example.com/" "/") :=
  ⟨discover_issuer_cross_check.1 "https://idp.example.com" evilResponse
      (by
        intro md hmd
        have h0 : ProviderMetadata.parse_raw evilResponse.body =
            Except.ok evilProviderMetadata := rfl
        rw [h0] at hmd
        injection hmd with hmd
        subst hmd
        decide),
   discover_issuer_cross_check.2 "https://idp.example.com/" exampleResponse
      exampleProviderMetadata rfl⟩

/-- C2 counterexample: the claim states that a response with header
`application/json; charset=utf-8` passes the discovery content-type check;
on the code it does not: discovery compares the header by exact string
equality (without the media-type helper) and rejects this response even
though `is_application_json` would accept its header. -/
theorem discover_charset_content_type_rejected :
    discover_configuration_from_issuer "https://idp.example.com" charsetResponse =
      Except.error (OpenidProtocolError.notJson (some "application/json; charset=utf-8"))
    ∧ is_application_json "application/json; charset=utf-8" = true :=
  ⟨rfl, rfl⟩

/-- C2 amended: discovery fails with the not-JSON protocol error exactly
when the `Content-Type` header is not the exact string `application/json`
(parameters are not stripped in the discovery check, although the
`is_application_json` helper of the utils module would strip them and
accept `application/json; charset=utf-8`); `text/html` fails either way. -/
theorem discover_content_type_exact_match :
    (∀ (issuer : String) (resp : HttpResponse),
        discover_configuration_from_issuer issuer resp =
            Except.error (OpenidProtocolError.notJson resp.contentType) ↔
          resp.contentType ≠ some "application/json")
    ∧ is_application_json "application/json; charset=utf-8" = true
    ∧ is_application_json "text/html" = false := by
  refine ⟨fun issuer resp => ?_, rfl, rfl⟩
  by_cases hct : resp.contentType = some "application/json"
  · constructor
    · intro h
      exfalso
      cases hp : ProviderMetadata.parse_raw resp.body with
      | error e => simp [discover_configuration_from_issuer, hct, hp] at h
      | ok result =>
        simp only [discover_configuration_from_issuer, hct] at h
        simp at h
        rw [hp] at h
        dsimp only [] at h
        by_cases hiss : result.issuer = pyRemoveSuffix issuer "/"
        · rw [if_pos hiss] at h; exact Except.noConfusion h
        · rw [if_neg hiss] at h; injection h with h; exact OpenidProtocolError.noConfusion h
    · intro h; exact absurd hct h
  · constructor
    · intro _; exact hct
    · intro _; simp [discover_configuration_from_issuer, hct]

/-- C3: constructing an error response from a wire `error` value fails with
the invalid-error-code validation failure exactly when the value lies
outside the declared vocabulary of its message family (sixteen values for
authentication, six for token), and every vocabulary value parses through
the enum member carrying that exact wire value (stored back as its value
string because of `use_enum_values`). -/
theorem error_vocabulary_closed (s : String) :
    (AuthenticationErrorResponse.parse [("error", Json.str s)] =
        Except.error (FieldError.invalidErrorCode s) ↔ s ∉ authenticationErrorValues)
    ∧ (∀ t, AuthenticationErrorResponse.ErrorType.fromWire s = some t →
        AuthenticationErrorResponse.ErrorType.toWire t = s ∧
        AuthenticationErrorResponse.parse [("error", Json.str s)] =
          Except.ok ⟨s, none, none, none, []⟩)
    ∧ (TokenErrorResponse.parse [("error", Json.str s)] =
        Except.error (FieldError.invalidErrorCode s) ↔ s ∉ tokenErrorValues)
    ∧ (∀ t, TokenErrorResponse.ErrorType.fromWire s = some t →
        TokenErrorResponse.ErrorType.toWire t = s ∧
        TokenErrorResponse.parse [("error", Json.str s)] =
          Except.ok ⟨s, none, none, []⟩) := by
  refine ⟨?_, ?_, ?_, ?_⟩
  · cases hw : AuthenticationErrorResponse.ErrorType.fromWire s with
    | none =>
      refine iff_of_true (authErrorParse_fromWire_none hw) ?_
      intro hmem
      have := (authErrorFromWire_isSome_iff s).mpr hmem
      simp [hw] at this
    | some t =>
      refine iff_of_false ?_ ?_
      · rw [authErrorParse_fromWire_some hw]
        simp
      · intro hnot
        exact hnot ((authErrorFromWire_isSome_iff s).mp
          (by rw [hw]; rfl))
  · intro t ht
    have hts := authErrorToWire_fromWire s t ht
    refine ⟨hts, ?_⟩
    rw [authErrorParse_fromWire_some ht, hts]
  · cases hw : TokenErrorResponse.ErrorType.fromWire s with
    | none =>
      refine iff_of_true (tokenErrorParse_fromWire_none hw) ?_
      intro hmem
      have := (tokenErrorFromWire_isSome_iff s).mpr hmem
      simp [hw] at this
    | some t =>
      refine iff_of_false ?_ ?_
      · rw [tokenErrorParse_fromWire_some hw]
        simp
      · intro hnot
        exact hnot ((tokenErrorFromWire_isSome_iff s).mp
          (by rw [hw]; rfl))
  · intro t ht
    have hts := tokenErrorToWire_fromWire s t ht
    refine ⟨hts, ?_⟩
    rw [tokenErrorParse_fromWire_some ht, hts]

/-- Witness for C3: a vocabulary value round-trips through construction for
both families and an out-of-vocabulary value is rejected with the
invalid-error-code failure. -/
theorem error_vocabulary_closed_witness :
    (AuthenticationErrorResponse.ErrorType.toWire
        AuthenticationErrorResponse.ErrorType.invalid_request = "invalid_request" ∧
      AuthenticationErrorResponse.parse [("error", Json.str "invalid_request")] =
        Except.ok ⟨"invalid_request", none, none, none, []⟩)
    ∧ (TokenErrorResponse.ErrorType.toWire TokenErrorResponse.ErrorType.invalid_grant =
        "invalid_grant" ∧
      TokenErrorResponse.parse [("error", Json.str "invalid_grant")] =
        Except.ok ⟨"invalid_grant", none, none, []⟩)
    ∧ AuthenticationErrorResponse.parse [("error", Json.str "bogus")] =
        Except.error (FieldError.invalidErrorCode "bogus") :=
  ⟨(error_vocabulary_closed "invalid_request").2.1 _ rfl,
   (error_vocabulary_closed "invalid_grant").2.2.2 _ rfl,
   (error_vocabulary_closed "bogus").1.mpr (by decide)⟩

/-- C4: for both closed schemas (`AuthenticationSuccessResponse` and
`TokenSuccessResponse`), an input mapping holding any key outside the
declared field set never constructs an instance: construction fails with
the unexpected-field failure naming an undeclared key present in the
input (so the undeclared field is neither dropped nor preserved). -/
theorem closed_schemas_reject_undeclared :
    (∀ (m : FieldMap) (k : String) (v : Json), (k, v) ∈ m →
        k ∉ AuthenticationSuccessResponse.declaredFields →
        ∃ u, (∃ w, (u, w) ∈ m) ∧ u ∉ AuthenticationSuccessResponse.declaredFields ∧
          AuthenticationSuccessResponse.parse m =
            Except.error (FieldError.unexpectedField u))
    ∧ (∀ (m : FieldMap) (k : String) (v : Json), (k, v) ∈ m →
        k ∉ TokenSuccessResponse.declaredFields →
        ∃ u, (∃ w, (u, w) ∈ m) ∧ u ∉ TokenSuccessResponse.declaredFields ∧
          TokenSuccessResponse.parse m =
            Except.error (FieldError.unexpectedField u)) := by
  constructor
  · intro m k v hmem hk
    cases hf : m.find? (fun kv => !(AuthenticationSuccessResponse.declaredFields.contains kv.1)) with
    | none =>
      exfalso
      have := List.find?_eq_none.mp hf (k, v) hmem
      simp at this
      exact hk this
    | some kv =>
      have hp := List.find?_some hf
      have hm := List.mem_of_find?_eq_some hf
      refine ⟨kv.1, ⟨kv.2, hm⟩, by simpa using hp, ?_⟩
      unfold AuthenticationSuccessResponse.parse
      rw [hf]
  · intro m k v hmem hk
    cases hf : m.find? (fun kv => !(TokenSuccessResponse.declaredFields.contains kv.1)) with
    | none =>
      exfalso
      have := List.find?_eq_none.mp hf (k, v) hmem
      simp at this
      exact hk this
    | some kv =>
      have hp := List.find?_some hf
      have hm := List.mem_of_find?_eq_some hf
      refine ⟨kv.1, ⟨kv.2, hm⟩, by simpa using hp, ?_⟩
      unfold TokenSuccessResponse.parse
      rw [hf]

/-- Witness for C4: concrete inputs with one undeclared key fail for both
closed schemas. -/
theorem closed_schemas_reject_undeclared_witness :
    (∃ u, (∃ w, (u, w) ∈ [("code", Json.str "abc"), ("foo", Json.str "x")]) ∧
      u ∉ AuthenticationSuccessResponse.declaredFields ∧
      AuthenticationSuccessResponse.parse [("code", Json.str "abc"), ("foo", Json.str "x")] =
        Except.error (FieldError.unexpectedField u))
    ∧ (∃ u, (∃ w, (u, w) ∈ [("access_token", Json.str "a"), ("surprise", Json.num 1)]) ∧
      u ∉ TokenSuccessResponse.declaredFields ∧
      TokenSuccessResponse.parse [("access_token", Json.str "a"), ("surprise", Json.num 1)] =
        Except.error (FieldError.unexpectedField u)) :=
  ⟨closed_schemas_reject_undeclared.1 _ "foo" (Json.str "x") (by simp) (by decide),
   closed_schemas_reject_undeclared.2 _ "surprise" (Json.num 1) (by simp) (by decide)⟩

/-- C5: every message model of `data.py` is immutable once constructed:
for each of the eleven effective model configurations (the three request
types inherit the immutability bit from the base configuration, which is
modelled from the spec because `base_data.py` is not among the sources),
attribute assignment raises and leaves no mutated instance. -/
theorem all_messages_immutable :
    ∀ cfg ∈ allMessageConfigs, ∀ (fields : FieldMap) (k : String) (v : Json),
      setAttr cfg fields k v = Except.error MutationError.typeError := by
  intro cfg hcfg fields k v
  fin_cases hcfg <;> rfl

/-- Witness for C5: assignment fails on the three message types that do not
set the immutability flag in their own `Config`. -/
theorem all_messages_immutable_witness :
    setAttr AuthenticationRequest.config [("scope", Json.str "openid")] "scope"
        (Json.str "email") = Except.error MutationError.typeError
    ∧ setAttr TokenRequest.config [] "code" (Json.str "c") =
        Except.error MutationError.typeError
    ∧ setAttr UserinfoRequest.config [] "x" Json.null =
        Except.error MutationError.typeError :=
  ⟨all_messages_immutable AuthenticationRequest.config (by simp [allMessageConfigs]) _ _ _,
   all_messages_immutable TokenRequest.config (by simp [allMessageConfigs]) _ _ _,
   all_messages_immutable UserinfoRequest.config (by simp [allMessageConfigs]) _ _ _⟩

/-- C6 counterexample: the claim states that an ID token whose `sub` is
longer than 255 ASCII characters fails construction; on the code `sub` is
a plain string field with no length constraint, so a 256-character subject
constructs successfully. -/
theorem idToken_long_sub_accepted :
    longSub.length = 256 ∧
    IdToken.parse (idTokenBodyWithSub longSub) = Except.ok (idTokenWithSub longSub) :=
  ⟨rfl, rfl⟩

/-- C6 amended: `IdToken` construction applies no length validation to
`sub`: with the other required claims valid, construction succeeds for
every subject string (of any length) and stores it unchanged. -/
theorem idToken_sub_any_length (s : String) :
    IdToken.parse (idTokenBodyWithSub s) = Except.ok (idTokenWithSub s) ∧
    (idTokenWithSub s).sub = s :=
  ⟨rfl, rfl⟩

/-- C7 counterexample: the claim states that `aud` is normalized internally
to a list of one-or-more strings; on the code the union keeps the wire
shape, so parsing the bare-string shape stores the bare string itself and
not a one-element list. -/
theorem idToken_aud_string_shape_kept :
    IdToken.parse (idTokenBodyWithSub "24400320") =
      Except.ok (idTokenWithSub "24400320") ∧
    (idTokenWithSub "24400320").aud = StrOrList.str "client123" ∧
    (idTokenWithSub "24400320").aud ≠ StrOrList.list ["client123"] :=
  ⟨rfl, rfl, by decide⟩

/-- C7 amended: `IdToken` accepts `aud` as either a bare string or a list
of strings and stores the value in its wire shape (a tagged union, so the
shape used on the wire stays detectable); for the wire shape `client123`
the stored audience is that string itself, and for the wire shape
`[client123, other]` the stored list contains `client123` as a member. -/
theorem idToken_aud_union_shapes :
    (IdToken.parse (idTokenBodyWithSub "24400320") =
        Except.ok (idTokenWithSub "24400320") ∧
      (idTokenWithSub "24400320").aud = StrOrList.str "client123") ∧
    (IdToken.parse idTokenAudListBody = Except.ok idTokenAudListToken ∧
      idTokenAudListToken.aud = StrOrList.list ["client123", "other"] ∧
      "client123" ∈ ["client123", "other"]) :=
  ⟨⟨rfl, rfl⟩, rfl, rfl, by decide⟩

/-- C8: whenever `ProviderMetadata` construction succeeds, each of the
seven defaulted optional fields equals its spec-mandated default exactly
when its key was absent from the input, and equals the coercion of the
supplied value (never the default) whenever the key was present, even with
an empty list or a non-default boolean. -/
theorem providerMetadata_defaults (m : FieldMap) (md : ProviderMetadata)
    (h : ProviderMetadata.parse m = Except.ok md) :
    ((getField m "response_modes_supported" = none →
        md.response_modes_supported = some ["query", "fragment"]) ∧
      (∀ j, getField m "response_modes_supported" = some j →
        coerceOpt coerceListStr j = some md.response_modes_supported)) ∧
    ((getField m "grant_types_supported" = none →
        md.grant_types_supported = some ["authorization_code", "implicit"]) ∧
      (∀ j, getField m "grant_types_supported" = some j →
        coerceOpt coerceListStr j = some md.grant_types_supported)) ∧
    ((getField m "token_endpoint_auth_methods_supported" = none →
        md.token_endpoint_auth_methods_supported = some ["client_secret_basic"]) ∧
      (∀ j, getField m "token_endpoint_auth_methods_supported" = some j →
        coerceOpt coerceListStr j = some md.token_endpoint_auth_methods_supported)) ∧
    ((getField m "claims_parameter_supported" = none →
        md.claims_parameter_supported = some false) ∧
      (∀ j, getField m "claims_parameter_supported" = some j →
        coerceOpt coerceBool j = some md.claims_parameter_supported)) ∧
    ((getField m "request_parameter_supported" = none →
        md.request_parameter_supported = some false) ∧
      (∀ j, getField m "request_parameter_supported" = some j →
        coerceOpt coerceBool j = some md.request_parameter_supported)) ∧
    ((getField m "request_uri_parameter_supported" = none →
        md.request_uri_parameter_supported = some true) ∧
      (∀ j, getField m "request_uri_parameter_supported" = some j →
        coerceOpt coerceBool j = some md.request_uri_parameter_supported)) ∧
    ((getField m "require_request_uri_registration" = none →
        md.require_request_uri_registration = some false) ∧
      (∀ j, getField m "require_request_uri_registration" = some j →
        coerceOpt coerceBool j = some md.require_request_uri_registration)) := by
  simp only [ProviderMetadata.parse, exceptBind_ok, Except.ok.injEq] at h
  obtain ⟨x1, e1, x2, e2, x3, e3, x4, e4, x5, e5, x6, e6, x7, e7, x8, e8, x9, e9,
    x10, e10, x11, e11, x12, e12, x13, e13, x14, e14, x15, e15, x16, e16, x17, e17,
    x18, e18, x19, e19, x20, e20, x21, e21, x22, e22, x23, e23, x24, e24, x25, e25,
    x26, e26, x27, e27, x28, e28, x29, e29, x30, e30, x31, e31, x32, e32, x33, e33,
    x34, e34, x35, e35, hmd⟩ := h
  subst hmd
  exact ⟨⟨fun ha => optionalFieldD_absent e9 ha, fun j hj => optionalFieldD_present e9 hj⟩,
    ⟨fun ha => optionalFieldD_absent e10 ha, fun j hj => optionalFieldD_present e10 hj⟩,
    ⟨fun ha => optionalFieldD_absent e22 ha, fun j hj => optionalFieldD_present e22 hj⟩,
    ⟨fun ha => optionalFieldD_absent e30 ha, fun j hj => optionalFieldD_present e30 hj⟩,
    ⟨fun ha => optionalFieldD_absent e31 ha, fun j hj => optionalFieldD_present e31 hj⟩,
    ⟨fun ha => optionalFieldD_absent e32 ha, fun j hj => optionalFieldD_present e32 hj⟩,
    ⟨fun ha => optionalFieldD_absent e33 ha, fun j hj => optionalFieldD_present e33 hj⟩⟩

/-- Witness for C8: the minimal discovery body receives all seven
defaults, and a body supplying the fields explicitly (including an empty
list) keeps the supplied values. -/
theorem providerMetadata_defaults_witness :
    (exampleProviderMetadata.response_modes_supported = some ["query", "fragment"]
     ∧ exampleProviderMetadata.grant_types_supported = some ["authorization_code", "implicit"]
     ∧ exampleProviderMetadata.token_endpoint_auth_methods_supported = some ["client_secret_basic"]
     ∧ exampleProviderMetadata.claims_parameter_supported = some false
     ∧ exampleProviderMetadata.request_parameter_supported = some false
     ∧ exampleProviderMetadata.request_uri_parameter_supported = some true
     ∧ exampleProviderMetadata.require_request_uri_registration = some false)
    ∧ coerceOpt coerceListStr (Json.arr []) =
        some overrideProviderMetadata.response_modes_supported
    ∧ coerceOpt coerceBool (Json.bool true) =
        some overrideProviderMetadata.claims_parameter_supported :=
  ⟨⟨(providerMetadata_defaults exampleProviderFields exampleProviderMetadata rfl).1.1 rfl,
    (providerMetadata_defaults exampleProviderFields exampleProviderMetadata rfl).2.1.1 rfl,
    (providerMetadata_defaults exampleProviderFields exampleProviderMetadata rfl).2.2.1.1 rfl,
    (providerMetadata_defaults exampleProviderFields exampleProviderMetadata rfl).2.2.2.1.1 rfl,
    (providerMetadata_defaults exampleProviderFields exampleProviderMetadata rfl).2.2.2.2.1.1 rfl,
    (providerMetadata_defaults exampleProviderFields exampleProviderMetadata rfl).2.2.2.2.2.1.1 rfl,
    (providerMetadata_defaults exampleProviderFields exampleProviderMetadata rfl).2.2.2.2.2.2.1 rfl⟩,
   (providerMetadata_defaults overrideProviderFields overrideProviderMetadata rfl).1.2
      (Json.arr []) rfl,
   (providerMetadata_defaults overrideProviderFields overrideProviderMetadata rfl).2.2.2.1.2
      (Json.bool true) rfl⟩

/-- C9: the media-type helper returns the bare media type with semicolon
separated parameters discarded, and a semicolon inside a quoted parameter
value is not treated as a separator: the three specified vectors hold, and
in general any parameter tail behind a semicolon-free, quote-free media
type is discarded (leaving the stripped media type). -/
theorem parse_media_type_spec :
    _parse_header "application/json; charset=utf-8" = "application/json" ∧
    _parse_header "text/html" = "text/html" ∧
    _parse_header "application/json; foo=\"a;b\"" = "application/json" ∧
    (∀ mt rest : String, ';' ∉ mt.toList → '"' ∉ mt.toList →
      _parse_header (mt ++ ";" ++ rest) = String.mk (pyStrip mt.toList)) :=
  ⟨rfl, rfl, rfl, parse_header_discards_params⟩

/-- Witness for C9: the universal part applied to the JSON media type with
a charset parameter tail. -/
theorem parse_media_type_spec_witness :
    _parse_header ("application/json" ++ ";" ++ " charset=utf-8") =
      String.mk (pyStrip "application/json".toList) :=
  parse_media_type_spec.2.2.2 "application/json" " charset=utf-8" (by decide) (by decide)

/-- C10: `UserinfoErrorResponse` applies no vocabulary check to `error`:
for every string value, construction from an input holding that `error`
value succeeds and stores the exact string. -/
theorem userinfo_error_accepts_any_string (s : String) :
    UserinfoErrorResponse.parse [("error", Json.str s)] =
      Except.ok ⟨s, none⟩ :=
  rfl
